import Mathlib

/-!
Verification of the key-value store in `src/main.go`.

The store (`KVStore`) wraps a Go map `map[K]V` behind a `sync.RWMutex`.
We embed the map as its extensional denotation `K → Option V` (a missing
key reads as `none`; Go's zero-value-on-miss is modelled with `default`
from an `Inhabited` instance, matching the concrete instantiation where
`V = string` and the zero value is `""`).

Go's `error` results are modelled as `Option (GoError K)`: `none` is the
`nil` error, and `some (GoError.keyNotFound k)` is the single domain error
`fmt.Errorf("key (%v) does not exists", key)` raised by `Read`.
Each operation returns the new store state explicitly (Go mutates the
receiver in place).
-/

/-- The single domain error of the program: the "key does not exists"
error produced by `Read` via `fmt.Errorf`, carrying the offending key. -/
inductive GoError (K : Type) where
  | keyNotFound (key : K)
deriving DecidableEq

/-- `KVStore[K, V]` from `src/main.go` lines 17-20, with the `sync.RWMutex`
elided (the embedding is sequential) and the map `data` taken extensionally. -/
@[ext]
structure KVStore (K V : Type) where
  data : K → Option V

/-- `NewKVStore` (`src/main.go` lines 22-26): a store with an empty map. -/
def NewKVStore (K V : Type) : KVStore K V :=
  ⟨fun _ => none⟩

/-- `KVStore.Has` (`src/main.go` lines 30-33): `value, ok := k.data[key]`.
On a missing key the Go map lookup yields the zero value and `false`. -/
def KVStore.Has {K V : Type} [Inhabited V] (s : KVStore K V) (key : K) :
    V × Bool :=
  match s.data key with
  | some v => (v, true)
  | none => (default, false)

/-- `KVStore.Create` (`src/main.go` lines 35-40): `k.data[key] = value;
return nil`. Returns the updated store and the `nil` error. -/
def KVStore.Create {K V : Type} [DecidableEq K] (s : KVStore K V)
    (key : K) (value : V) : KVStore K V × Option (GoError K) :=
  (⟨fun k => if k = key then some value else s.data k⟩, none)

/-- `KVStore.Read` (`src/main.go` lines 42-50): `value, ok := k.data[key]`;
if `!ok` return the zero value together with the "does not exists" error,
else return the value and `nil`. -/
def KVStore.Read {K V : Type} [Inhabited V] (s : KVStore K V) (key : K) :
    V × Option (GoError K) :=
  match s.data key with
  | some v => (v, none)
  | none => (default, some (GoError.keyNotFound key))

/-- `KVStore.Update` (`src/main.go` lines 52-60): probe with `Has`; if the
key exists overwrite it, otherwise do nothing; always return `nil`. -/
def KVStore.Update {K V : Type} [DecidableEq K] [Inhabited V]
    (s : KVStore K V) (key : K) (value : V) :
    KVStore K V × Option (GoError K) :=
  let keyExists := (s.Has key).2
  if keyExists then
    (⟨fun k => if k = key then some value else s.data k⟩, none)
  else
    (s, none)

/-- `KVStore.Delete` (`src/main.go` lines 62-70): probe with `Has`
obtaining `v`; if the key exists remove it; return `v` and `nil`. -/
def KVStore.Delete {K V : Type} [DecidableEq K] [Inhabited V]
    (s : KVStore K V) (key : K) :
    KVStore K V × V × Option (GoError K) :=
  let probe := s.Has key
  if probe.2 then
    (⟨fun k => if k = key then none else s.data k⟩, probe.1, none)
  else
    (s, probe.1, none)

/-! ## Claims -/

/-- C1: for every key `k` and value `v`, calling `Create(k, v)` on any
store state and then `Read(k)` returns `v` with no error. -/
theorem create_then_read {K V : Type} [DecidableEq K] [Inhabited V]
    (s : KVStore K V) (k : K) (v : V) :
    ((s.Create k v).1).Read k = (v, none) := by
  simp [KVStore.Create, KVStore.Read]

/-- C2: for every key `k` absent from the store's mapping, `Read(k)`
returns the "key not found" error, and only the zero value (no stored
value). -/
theorem read_missing_errors {K V : Type} [Inhabited V]
    (s : KVStore K V) (k : K) (h : s.data k = none) :
    s.Read k = (default, some (GoError.keyNotFound k)) := by
  simp [KVStore.Read, h]

/-- Witness for C2 at the freshly constructed store and key `"a"`. -/
theorem read_missing_errors_witness :
    (NewKVStore String String).data "a" = none ∧
    (NewKVStore String String).Read "a" =
      (default, some (GoError.keyNotFound "a")) :=
  ⟨rfl, read_missing_errors (NewKVStore String String) "a" rfl⟩

/-- C3: after `Create(k, v1)` followed by `Update(k, v2)`, a subsequent
`Read(k)` returns `v2` with no error. -/
theorem create_update_read {K V : Type} [DecidableEq K] [Inhabited V]
    (s : KVStore K V) (k : K) (v1 v2 : V) :
    ((((s.Create k v1).1).Update k v2).1).Read k = (v2, none) := by
  simp [KVStore.Create, KVStore.Update, KVStore.Has, KVStore.Read]

/-- C4: `Update(k, v)` on a key absent from the store returns no error
and leaves the store (hence the entire mapping) unchanged, so `k` is not
introduced. -/
theorem update_missing_noop {K V : Type} [DecidableEq K] [Inhabited V]
    (s : KVStore K V) (k : K) (v : V) (h : s.data k = none) :
    s.Update k v = (s, none) := by
  simp [KVStore.Update, KVStore.Has, h]

/-- Witness for C4 at the freshly constructed store, key `"a"`, value
`"x"`. -/
theorem update_missing_noop_witness :
    (NewKVStore String String).data "a" = none ∧
    (NewKVStore String String).Update "a" "x" =
      (NewKVStore String String, none) :=
  ⟨rfl, update_missing_noop (NewKVStore String String) "a" "x" rfl⟩

/-- C5: after `Create(k, v)`, `Delete(k)` returns the prior value `v`
with no error, removes `k` from the mapping, and a subsequent `Read(k)`
fails with the not-found error. -/
theorem create_then_delete {K V : Type} [DecidableEq K] [Inhabited V]
    (s : KVStore K V) (k : K) (v : V) :
    (((s.Create k v).1).Delete k).2 = (v, none) ∧
    ((((s.Create k v).1).Delete k).1).data k = none ∧
    ((((s.Create k v).1).Delete k).1).Read k =
      (default, some (GoError.keyNotFound k)) := by
  refine ⟨?_, ?_, ?_⟩ <;>
    simp [KVStore.Create, KVStore.Delete, KVStore.Has, KVStore.Read]

/-- C6: `Delete(k)` on a key absent from the store returns the zero
value with no error and leaves the store unchanged. -/
theorem delete_missing_noop {K V : Type} [DecidableEq K] [Inhabited V]
    (s : KVStore K V) (k : K) (h : s.data k = none) :
    s.Delete k = (s, default, none) := by
  simp [KVStore.Delete, KVStore.Has, h]

/-- Witness for C6 at the freshly constructed store and key `"a"`. -/
theorem delete_missing_noop_witness :
    (NewKVStore String String).data "a" = none ∧
    (NewKVStore String String).Delete "a" =
      (NewKVStore String String, default, none) :=
  ⟨rfl, delete_missing_noop (NewKVStore String String) "a" rfl⟩

/-- C7: `Create` always returns the nil error, and so do `Update` and
`Delete`; `Read` is the only operation returning an error, and it does so
exactly when its key is absent. -/
theorem error_taxonomy {K V : Type} [DecidableEq K] [Inhabited V]
    (s : KVStore K V) (k : K) (v : V) :
    (s.Create k v).2 = none ∧
    (s.Update k v).2 = none ∧
    (s.Delete k).2.2 = none ∧
    ((s.Read k).2 ≠ none ↔ s.data k = none) := by
  refine ⟨rfl, ?_, ?_, ?_⟩
  · by_cases hk : (s.Has k).2 <;> simp [KVStore.Update, hk]
  · by_cases hk : (s.Has k).2 <;> simp [KVStore.Delete, hk]
  · unfold KVStore.Read
    cases h : s.data k <;> simp

/-- C9: each of `Create(k, v)`, `Update(k, v)` and `Delete(k)` leaves the
mapping at every key `k'` different from `k` unchanged. -/
theorem frame_other_keys {K V : Type} [DecidableEq K] [Inhabited V]
    (s : KVStore K V) (k k' : K) (v : V) (h : k' ≠ k) :
    ((s.Create k v).1).data k' = s.data k' ∧
    ((s.Update k v).1).data k' = s.data k' ∧
    ((s.Delete k).1).data k' = s.data k' := by
  refine ⟨?_, ?_, ?_⟩
  · simp [KVStore.Create, h]
  · by_cases hk : (s.Has k).2 <;> simp [KVStore.Update, hk, h]
  · by_cases hk : (s.Has k).2 <;> simp [KVStore.Delete, hk, h]

/-- Witness for C9 on a one-entry store, mutated key `"a"`, observed key
`"b"`. -/
theorem frame_other_keys_witness :
    ("b" : String) ≠ "a" ∧
    ((((NewKVStore String String).Create "a" "x").1).Create "a" "y").1.data "b" =
      (((NewKVStore String String).Create "a" "x").1).data "b" ∧
    ((((NewKVStore String String).Create "a" "x").1).Update "a" "y").1.data "b" =
      (((NewKVStore String String).Create "a" "x").1).data "b" ∧
    ((((NewKVStore String String).Create "a" "x").1).Delete "a").1.data "b" =
      (((NewKVStore String String).Create "a" "x").1).data "b" :=
  ⟨by decide,
   frame_other_keys (((NewKVStore String String).Create "a" "x").1)
     "a" "b" "y" (by decide)⟩

/-- C10: on a key already present, `Update(k, v)` and `Create(k, v)`
produce identical results (state and error); and `Create(k, v)` is
idempotent: doing it twice yields the same state as doing it once. -/
theorem update_eq_create_on_present {K V : Type} [DecidableEq K]
    [Inhabited V] (s : KVStore K V) (k : K) (v : V)
    (h : (s.data k).isSome) :
    s.Update k v = s.Create k v ∧
    (((s.Create k v).1).Create k v).1 = (s.Create k v).1 := by
  constructor
  · unfold KVStore.Update KVStore.Create KVStore.Has
    cases hd : s.data k with
    | none => rw [hd] at h; simp at h
    | some w => simp
  · ext k'
    by_cases hk : k' = k <;> simp [KVStore.Create, hk]

/-- Witness for C10 on a store holding key `"a"`. -/
theorem update_eq_create_on_present_witness :
    ((((NewKVStore String String).Create "a" "x").1).data "a").isSome ∧
    (((NewKVStore String String).Create "a" "x").1).Update "a" "y" =
      (((NewKVStore String String).Create "a" "x").1).Create "a" "y" ∧
    ((((((NewKVStore String String).Create "a" "x").1).Create "a" "y").1).Create "a" "y").1 =
      (((((NewKVStore String String).Create "a" "x").1).Create "a" "y")).1 :=
  ⟨by decide,
   update_eq_create_on_present (((NewKVStore String String).Create "a" "x").1)
     "a" "y" (by decide)⟩
